import Mathlib

/-!
Verification of the simli-client connection-orchestration layer.

Shallow embedding of the converged sources:
- `src/lib/client.ts` (`SimliClient`: constructor, `start`/`stop` retry loop,
  `resetConnections`, `sendAudioData`, the `AudioProcessor` worklet code)
- `src/lib/transports/BaseTransport.ts` (`handleMessage` dispatcher)
- `src/lib/signaling/WebSocketSignaling.ts` (`send` and the audio send paths)
- the two transport variants `P2PTransport` and `LivekitTransport`
  (event registry `on`/`off`/`emit`, `waitForIceGathering`).

Time, promises and the DOM are abstracted: asynchronous outcomes of a
connection attempt become explicit inputs, polling loops become recursion over
observation streams, and machine numbers become `ℚ`/`ℤ`/`Nat`.
-/

namespace SimliSpec

/- ### Events and the signaling dispatcher -/

/-- Events of the `SimliClientEvents` interface (src/lib/events.ts). -/
inductive Ev
  | start
  | stop
  | error
  | ack
  | connection_info
  | video_info
  | destination
  | speaking
  | silent
  | unknown
  | startup_error
deriving DecidableEq, Repr

/-- One observable action of the signaling dispatcher: a `disconnect()` call on
the transport, or an event emission with its optional string payload. -/
inductive Action
  | disconnect
  | emit (e : Ev) (payload : Option String)
deriving DecidableEq, Repr

/-- JS `message.data.toUpperCase().split(" ")[0]`: element 0 of a split on
single spaces is the longest prefix free of `' '`, here of the uppercased
frame (the empty string for an empty or space-led frame). -/
def firstTokenL (data : List Char) : List Char :=
  (data.map Char.toUpper).takeWhile (fun c => c ≠ ' ')

/-- Test that `pat` is a prefix of `hay`. -/
def listStarts : List Char → List Char → Bool
  | [], _ => true
  | _ :: _, [] => false
  | p :: ps, h :: hs => p = h && listStarts ps hs

/-- JS `String.prototype.includes`: `pat` occurs somewhere inside `hay`. -/
def listHasSub : List Char → List Char → Bool
  | [], pat => listStarts pat []
  | c :: t, pat => listStarts pat (c :: t) || listHasSub t pat

/-- JS `String.prototype.startsWith`. -/
def jsStartsWith (s pat : String) : Bool :=
  listStarts pat.toList s.toList

/-- JS `String.prototype.endsWith`. -/
def jsEndsWith (s pat : String) : Bool :=
  listStarts pat.toList.reverse s.toList.reverse

instance {ε α : Type} [DecidableEq ε] [DecidableEq α] : DecidableEq (Except ε α) := fun x y =>
  match x, y with
  | .error e, .error f =>
    if h : e = f then .isTrue (by rw [h]) else .isFalse (fun hh => h (Except.error.inj hh))
  | .ok a, .ok b =>
    if h : a = b then .isTrue (by rw [h]) else .isFalse (fun hh => h (Except.ok.inj hh))
  | .error _, .ok _ => .isFalse (fun hh => Except.noConfusion hh)
  | .ok _, .error _ => .isFalse (fun hh => Except.noConfusion hh)

/-- The inbound text-frame dispatcher `handleMessage`
(src/lib/transports/BaseTransport.ts, lines 39-86), as the ordered list of
transport actions it performs.  The `CLOSING`/`RATE`/`ERROR`/`"ERROR:"` case of
the source switch has no `break`, so after `disconnect()` and the `error`
emission it falls through into the `SPEAK` case and additionally emits
`speaking`; the translation reproduces that fallthrough. -/
def handleMessage (data : String) : List Action :=
  let tok := firstTokenL data.toList
  if tok = "START".toList then []
  else if tok = "ACK".toList then [.emit .ack none]
  else if tok = "STOP".toList then [.disconnect, .emit .stop none]
  else if tok = "CLOSING".toList ∨ tok = "RATE".toList ∨ tok = "ERROR".toList
      ∨ tok = "ERROR:".toList then
    [.disconnect, .emit .error (some data), .emit .speaking none]
  else if tok = "SPEAK".toList then [.emit .speaking none]
  else if tok = "SILENT".toList then [.emit .silent none]
  else if listHasSub tok "SDP".toList || listHasSub tok "LIVEKIT".toList then
    [.emit .connection_info (some data)]
  else if listHasSub tok "VIDEO_METADATA".toList then [.emit .video_info (some data)]
  else if listHasSub tok "ENDFRAME".toList then [.emit .stop none, .disconnect]
  else if listHasSub tok "DESTINATION".toList then [.emit .destination (some data)]
  else [.emit .unknown (some data)]

/- ### The audio worklet sample conversion -/

/-- JS `Math.round`: round half toward positive infinity. -/
def jsRound (q : ℚ) : ℤ := ⌊q + 1/2⌋

/-- One sample of the audio worklet (src/lib/client.ts line 28):
`Math.max(-32768, Math.min(32767, Math.round(inputChannel[i] * 32767)))`.
The result lies in `[-32768, 32767]`, so the `Int16Array` store is exact. -/
def processSample (v : ℚ) : ℤ :=
  max (-32768) (min 32767 (jsRound (v * 32767)))

/-- The mapping the claim asserts for every sample: `round(clamp(v,-1,1)*32767)`. -/
def claimSample (v : ℚ) : ℤ :=
  jsRound (max (-1) (min 1 v) * 32767)

/- ### Transport event registries: emit / off -/

/-- A registered callback, abstracted to an identity and whether invoking it
raises an exception. -/
structure Cb where
  id : Nat
  raises : Bool
deriving DecidableEq, Repr

/-- The observable result of one `emit`: callback ids invoked in order, ids
whose exception was caught and logged, and the exception (by callback id) that
escaped to the emitter, if any. -/
structure EmitRun where
  invoked : List Nat
  logged : List Nat
  escaped : Option Nat
deriving DecidableEq, Repr

/-- Model of `P2PTransport.emit` (P2PTransport source, lines 89-102): iterate the
registered callbacks in order, each invocation wrapped in `try { cb() } catch
{ log }`, so every callback runs and nothing escapes. -/
def p2pEmit : List Cb → EmitRun
  | [] => ⟨[], [], none⟩
  | c :: rest =>
    let r := p2pEmit rest
    if c.raises then ⟨c.id :: r.invoked, c.id :: r.logged, r.escaped⟩
    else ⟨c.id :: r.invoked, r.logged, r.escaped⟩

/-- Model of `LivekitTransport.emit` (LivekitTransport source, lines 78-86): iterate the
registered callbacks with no try/catch, so the first raising callback aborts
the `forEach` and its exception propagates to the emitter. -/
def lkEmit : List Cb → EmitRun
  | [] => ⟨[], [], none⟩
  | c :: rest =>
    if c.raises then ⟨[c.id], [], some c.id⟩
    else
      let r := lkEmit rest
      ⟨c.id :: r.invoked, r.logged, r.escaped⟩

/-- An event registry (`EventMap = Map<string, Set<EventCallback>>`): event
names to registered callback ids, keys unique, sets in insertion order. -/
abbrev EventReg := List (Ev × List Nat)

/-- Model of `P2PTransport.off` (lines 82-87): `this.events.get(event)?.delete(cb)` —
remove if present, a silent no-op when the event or the callback is absent. -/
def p2pOff : EventReg → Ev → Nat → EventReg
  | [], _, _ => []
  | (e, cbs) :: rest, ev, cb =>
    if e = ev then (e, cbs.erase cb) :: rest else (e, cbs) :: p2pOff rest ev cb

/-- Registry lookup, `Map.get` / `Map.has`. -/
def regFind : EventReg → Ev → Option (List Nat)
  | [], _ => none
  | (e, cbs) :: rest, ev => if e = ev then some cbs else regFind rest ev

/-- Model of `LivekitTransport.off` (lines 68-76): `if (!this.events.has(event)) throw
"Event Not Regsitered"` (typo as in the source), then delete. -/
def lkOff (m : EventReg) (ev : Ev) (cb : Nat) : Except String EventReg :=
  if (regFind m ev).isNone then .error "Event Not Regsitered"
  else .ok (p2pOff m ev cb)

/-- Model of `SimliClient.off` (src/lib/client.ts lines 159-168): the facade checks its
`persistent_events` registry and throws the same message for an unregistered
event, then deletes there and forwards to the transport `off`. -/
def clientOff (persistent : EventReg) (ev : Ev) (cb : Nat) : Except String EventReg :=
  if (regFind persistent ev).isNone then .error "Event Not Regsitered"
  else .ok (p2pOff persistent ev cb)

/- ### WebSocket signaling sends -/

/-- WebSocket ready states, with their DOM numbering. -/
inductive WSState
  | connecting
  | opened
  | closing
  | closedSt
deriving DecidableEq, Repr

/-- The DOM `readyState` number. -/
def WSState.code : WSState → Nat
  | .connecting => 0
  | .opened => 1
  | .closing => 2
  | .closedSt => 3

/-- Model of `WebSocketSignaling.send` (src/lib/signaling/WebSocketSignaling.ts lines
21-26): `if (readyState != OPEN) throw ...; this.wsConnection.send(data)`.
An `.ok` value is the frame put on the wire. -/
def wsSend (st : WSState) (data : List Nat) : Except String (List Nat) :=
  if st ≠ .opened then
    .error ("Invalid State, WS Connection " ++ toString st.code)
  else .ok data

set_option linter.unusedVariables false in
/-- Model of `SimliClient.sendAudioData` (src/lib/client.ts lines 350-352): forwards the
frame to `this.connection.signalingConnection.sendAudioData`, which (after an
optional debug log) calls `send`.  The client keeps no flag recording whether
the session-start `ACK` was received, so the wire outcome is a function of the
socket state alone; the `ackReceived` parameter records the acknowledgment
state only so the claim about it can be stated. -/
def clientSendAudioData (ws : WSState) (ackReceived : Bool) (frame : List Nat) :
    Except String (List Nat) :=
  wsSend ws frame

/- ### P2PTransport.waitForIceGathering -/

/-- The polling loop body `checkIceCandidates` of `waitForIceGathering`
(P2PTransport source, lines 146-177).  `complete k` is the value of
`pc.iceGatheringState === "complete"` and `count k` the value of
`this.iceCandidateCount` at the k-th check; checks are 150 ms apart, the first
one running synchronously.  `prev` is `this.previousIceCandidateCount`.
Returns the index of the check at which the wait resolves; `none` when `fuel`
checks all recurse (the 10 s timeout then rejects the wait).  Both counters
are reset to 0 on entry, and the candidate-counting `onicecandidate` listener
is installed by `connect()` only after this wait, so in every execution of the
source `count 0 = 0`. -/
def iceCheck (complete : Nat → Bool) (count : Nat → Nat) :
    Nat → Nat → Nat → Option Nat
  | _, _, 0 => none
  | prev, k, fuel + 1 =>
    if complete k || count k = prev then some k
    else iceCheck complete count (count k) (k + 1) fuel

/-- Model of `waitForIceGathering`: counters reset to 0, then the polling loop starts at
check 0 (the early return on an already-complete gathering state coincides
with the loop resolving at check 0). -/
def waitForIceGathering (complete : Nat → Bool) (count : Nat → Nat)
    (fuel : Nat) : Option Nat :=
  iceCheck complete count 0 0 fuel

/- ### SimliClient: constructor, resetConnections, start/stop -/

/-- The two transport modes of `type TransportMode = "livekit" | "p2p"`. -/
inductive TransportMode
  | livekit
  | p2p
deriving DecidableEq, Repr

/-- The check `!iceServers || iceServers.length == 0` (`null` or empty list). -/
def iceMissing : Option (List String) → Bool
  | none => true
  | some l => l.length == 0

/-- The transport-construction switch shared verbatim by the constructor
(src/lib/client.ts lines 212-225) and `resetConnections` (lines 249-262):
`livekit` always constructs; `p2p` first throws unless a nonempty ICE server
list is present.  An `.ok` value is the mode of the Transport constructed
(constructing one opens its signaling WebSocket); `.error` means the throw
happened before any Transport or network connection was created. -/
def constructTransport (mode : TransportMode) (ice : Option (List String)) :
    Except String TransportMode :=
  match mode with
  | .livekit => .ok .livekit
  | .p2p =>
    if iceMissing ice then .error "Ice Servers Required for P2P Mode"
    else .ok .p2p

/-- Constructor configuration (src/lib/client.ts lines 170-180). -/
structure ClientConfig where
  session_token : String
  iceServers : Option (List String)
  transport_mode : TransportMode
  simliWSURL : String
  audioBufferSize : ℚ

/-- The `SimliClient` constructor validations and transport switch
(src/lib/client.ts lines 181-225), in source order: buffer-size checks, the
WS-URL shape check, then the mode switch.  An `.ok` value is the mode of the
Transport constructed; every `.error` is thrown synchronously before any
Transport (hence any network connection) exists. -/
def mkSimliClient (cfg : ClientConfig) : Except String TransportMode :=
  if cfg.audioBufferSize ≤ 0 then
    .error "Invalid Buffer Size, Can\x27t be negative"
  else if (⌊cfg.audioBufferSize⌋ : ℚ) - cfg.audioBufferSize ≠ 0 then
    .error "Invalid Buffer Size, Can\x27t be a float"
  else if ¬(jsStartsWith cfg.simliWSURL "ws://" ∨ jsStartsWith cfg.simliWSURL "wss://")
      ∨ jsEndsWith cfg.simliWSURL "/" then
    .error "Invalid Simli WS URL"
  else constructTransport cfg.transport_mode cfg.iceServers

/-- Which transport `"error"` handler is installed on the active connection:
the constructor installs one that records `failReason` (line 231), while
`resetConnections` installs one that saturates the retry counter (line 267). -/
inductive HandlerKind
  | ctor
  | reset
deriving DecidableEq, Repr

/-- The constant `MAX_RETRY_ATTEMPTS` (src/lib/client.ts line 131). -/
def MAX_RETRY_ATTEMPTS : Nat := 10

/-- The `SimliClient` session state read and written by the `start`/`stop`
retry machinery, plus `attemptLog`: one `(retryAttempt, mode)` entry per
Transport constructed by `resetConnections`, recording the retry counter and
transport mode at that construction. -/
structure Session where
  transport : TransportMode
  iceServers : Option (List String)
  retryAttempt : Nat
  shouldStop : Bool
  failReason : Option String
  handler : HandlerKind
  attemptLog : List (Nat × TransportMode)
deriving DecidableEq, Repr

/-- The session state right after a successful `new SimliClient(...)`. -/
def initSession (mode : TransportMode) (ice : Option (List String)) : Session :=
  { transport := mode, iceServers := ice, retryAttempt := 0,
    shouldStop := false, failReason := none, handler := .ctor, attemptLog := [] }

/-- Model of `stop()` (src/lib/client.ts lines 305-308): sets `shouldStop` and
disconnects the active transport (teardown is best-effort and logged). -/
def stopSession (s : Session) : Session :=
  { s with shouldStop := true }

/-- How one connection attempt can turn out, as observed by the two `await`s
in `start()` (lines 281-282). -/
inductive Outcome
  | success
  | localFailure (msg : String)
  | remoteFatal (msg : String)
deriving DecidableEq, Repr

/-- One connection attempt together with the `stop()` interleavings around it:
`stopDuringConnect` = `stop()` ran while the attempt was in flight (before the
catch block runs); `stopDuringBackoff` = `stop()` ran during the retry backoff
delay (after the catch checks, before `resetConnections`). -/
structure AttemptInput where
  stopDuringConnect : Bool
  outcome : Outcome
  stopDuringBackoff : Bool
deriving DecidableEq, Repr

/-- Effect of the attempt outcome on the session before the catch block runs.
`success`: the `start` event resolved the connection promise.  `localFailure`:
the promise rejected (timeout / websocket failure) with no transport `error`
event.  `remoteFatal`: the transport emitted `"error"` with `msg`, whose
handler is the one the active connection was built with — the constructor
variant records `failReason` (line 231), the `resetConnections` variant sets
`retryAttempt = MAX_RETRY_ATTEMPTS` (line 267) — and the promise rejects with
`msg`.  Returns the updated session and `some msg` when the await threw. -/
def attemptReject (s : Session) : Outcome → Session × Option String
  | .success => (s, none)
  | .localFailure msg => (s, some msg)
  | .remoteFatal msg =>
    match s.handler with
    | .ctor => ({ s with failReason := some msg }, some msg)
    | .reset => ({ s with retryAttempt := MAX_RETRY_ATTEMPTS }, some msg)

/-- Model of `resetConnections` (src/lib/client.ts lines 235-275): clears `failReason`,
rebuilds the connection promise, runs the transport switch (same ICE-server
precondition as the constructor), installs the retry-saturating `"error"`
handler and re-registers all persistent callbacks.  Each successful run
constructs a fresh Transport, recorded in `attemptLog`. -/
def resetConnections (s : Session) : Except String Session :=
  match constructTransport s.transport s.iceServers with
  | .error e => .error e
  | .ok m =>
    .ok { s with failReason := none, handler := .reset,
                 attemptLog := s.attemptLog ++ [(s.retryAttempt, m)] }

/-- Result of a `start()` call: resolved, rejected with a message, or the
attempt trace was exhausted with the loop still running. -/
inductive StartResult
  | ok
  | err (msg : String)
  | fuel
deriving DecidableEq, Repr

/-- Thrown by the guard at the top of `start()` (line 278). -/
def reuseErrMsg : String :=
  "Disconnect Already Called, Can\x27t reuse same SimliClient multiple times create a new SimliClient Object"

/-- Thrown when the retry counter reaches `MAX_RETRY_ATTEMPTS` (line 289). -/
def tooManyMsg : String := "Too Many Retry Attempts Failed to connect"

/-- Thrown when the catch block sees `shouldStop` (line 292; the typo is the
source's). -/
def stoppedMidMsg : String := "Called Disconnect Before A Connecction succeeded"

/-- The catch block of `start()` (src/lib/client.ts lines 284-302), entered
with the post-attempt session `s2` and the thrown message `msg`: rethrow when
`failReason` is set; throw `tooManyMsg` at the retry cap; throw `stoppedMidMsg`
— after CLEARING `shouldStop` — when `stop()` ran mid-attempt; otherwise back
off (during which `stop()` may run), increment the counter, force
`transport = "livekit"` once the counter exceeds 2, rebuild the connection
(`resetConnections`, whose throw propagates) and hand the fresh session to the
recursive `start()` call `recur`. -/
def startCatch (s2 : Session) (msg : String) (a : AttemptInput)
    (recur : Session → Session × StartResult) : Session × StartResult :=
  if s2.failReason.isSome then (s2, .err msg)
  else if MAX_RETRY_ATTEMPTS ≤ s2.retryAttempt then (s2, .err tooManyMsg)
  else if s2.shouldStop then ({ s2 with shouldStop := false }, .err stoppedMidMsg)
  else
    let s3 := if a.stopDuringBackoff then { s2 with shouldStop := true } else s2
    let s4 := { s3 with retryAttempt := s3.retryAttempt + 1 }
    let s5 := if 2 < s4.retryAttempt then { s4 with transport := .livekit } else s4
    match resetConnections s5 with
    | .error e => (s5, .err e)
    | .ok s6 => recur s6

/-- Model of `start()` (src/lib/client.ts lines 276-303) over a trace of attempt
inputs, one per connection attempt the recursion performs: the entry guard on
`shouldStop`, then the attempt (`attemptReject`); on success `retryAttempt`
resets to 0 and the call resolves; on a throw the catch block `startCatch`
runs with the recursive `start()` as its continuation. -/
def startAux (s : Session) : List AttemptInput → Session × StartResult
  | [] => (s, .fuel)
  | a :: rest =>
    if s.shouldStop then (s, .err reuseErrMsg)
    else
      match attemptReject
          (if a.stopDuringConnect then { s with shouldStop := true } else s) a.outcome with
      | (s2, none) => ({ s2 with retryAttempt := 0 }, .ok)
      | (s2, some msg) => startCatch s2 msg a (fun s6 => startAux s6 rest)

/- ### C3: dispatch of CLOSING / RATE / ERROR frames -/

/-- C3.  The claim reads: for every inbound text frame whose first token
(uppercased) is CLOSING, RATE or ERROR, the dispatcher disconnects, emits
exactly one `error` event with the raw message, and emits no other event for
that frame.  The code path for these tokens lacks a `break` and falls through
into the SPEAK case, so the dispatcher additionally emits `speaking` after the
`error` emission — evaluated here on a frame of each of the three kinds. -/
theorem closing_rate_error_also_emit_speaking :
    handleMessage "CLOSING session over" =
      [.disconnect, .emit .error (some "CLOSING session over"), .emit .speaking none] ∧
    handleMessage "RATE limit reached" =
      [.disconnect, .emit .error (some "RATE limit reached"), .emit .speaking none] ∧
    handleMessage "ERROR something broke" =
      [.disconnect, .emit .error (some "ERROR something broke"), .emit .speaking none] := by
  refine ⟨by decide, by decide, by decide⟩

/- ### C7: the worklet sample mapping -/

/-- C7 counterexample.  The claim asserts the emitted sample is
`round(clamp(v,-1,1)*32767)` for every input, including `v < -1`; at `v = -2`
the worklet computes `max(-32768, min(32767, round(-2*32767))) = -32768`,
while the claimed formula gives `round(-32767) = -32767`. -/
theorem processSample_ne_claim_at_neg_two :
    processSample (-2) = -32768 ∧ claimSample (-2) = -32767 ∧
    processSample (-2) ≠ claimSample (-2) := by
  have h1 : processSample (-2) = -32768 := by
    rw [processSample, jsRound]
    norm_num [min_def, max_def]
  have h2 : claimSample (-2) = -32767 := by
    rw [claimSample, jsRound]
    norm_num [min_def, max_def]
  refine ⟨h1, h2, by rw [h1, h2]; decide⟩

/-- C7 amended.  The worklet emits `clamp(round(v*32767), -32768, 32767)`;
this agrees with the claimed `round(clamp(v,-1,1)*32767)` for every sample
`v ≥ -1` — in particular on the whole nominal range `[-1,1]` and for every
out-of-range `v > 1` — the disagreement being confined to `v < -1`. -/
theorem processSample_eq_claim_of_ge_neg_one (v : ℚ) (h : -1 ≤ v) :
    processSample v = claimSample v := by
  rw [processSample, claimSample, jsRound, jsRound]
  rcases le_or_lt v 1 with hv | hv
  · rw [min_eq_right hv, max_eq_right h]
    have hlo : (-32767 : ℤ) ≤ ⌊v * 32767 + 1/2⌋ := by
      have hq : ((-32767 : ℚ) + 1/2) ≤ v * 32767 + 1/2 := by nlinarith
      calc (-32767 : ℤ) = ⌊(-32767 : ℚ) + 1/2⌋ := by norm_num
        _ ≤ ⌊v * 32767 + 1/2⌋ := Int.floor_mono hq
    have hhi : ⌊v * 32767 + 1/2⌋ ≤ 32767 := by
      have hq : v * 32767 + 1/2 ≤ (32767 : ℚ) + 1/2 := by nlinarith
      calc ⌊v * 32767 + 1/2⌋ ≤ ⌊(32767 : ℚ) + 1/2⌋ := Int.floor_mono hq
        _ = 32767 := by norm_num
    rw [min_eq_right hhi,
      max_eq_right (by linarith : (-32768 : ℤ) ≤ ⌊v * 32767 + 1/2⌋)]
  · rw [min_eq_left hv.le, max_eq_right (by norm_num : (-1 : ℚ) ≤ 1)]
    have h1 : ⌊(1 : ℚ) * 32767 + 1/2⌋ = 32767 := by norm_num
    have hge : (32767 : ℤ) ≤ ⌊v * 32767 + 1/2⌋ := by
      have hq : (1 : ℚ) * 32767 + 1/2 ≤ v * 32767 + 1/2 := by nlinarith
      calc (32767 : ℤ) = ⌊(1 : ℚ) * 32767 + 1/2⌋ := h1.symm
        _ ≤ ⌊v * 32767 + 1/2⌋ := Int.floor_mono hq
    rw [min_eq_left hge, h1]
    norm_num

/-- Witness for the amended C7 at `v = 1/2`. -/
theorem processSample_eq_claim_witness :
    (-1 : ℚ) ≤ 1/2 ∧ processSample (1/2) = claimSample (1/2) :=
  ⟨by norm_num, processSample_eq_claim_of_ge_neg_one (1/2) (by norm_num)⟩

/- ### C4: exception isolation in emit -/

/-- C4 counterexample.  The claim asserts that for BOTH transports a raising
callback is caught, every remaining callback still runs and nothing reaches
the emitter; in `LivekitTransport.emit` there is no try/catch, so with
callbacks `[0 (raises), 1]` the exception escapes and callback `1` is never
invoked. -/
theorem lkEmit_escapes_and_skips :
    (lkEmit [⟨0, true⟩, ⟨1, false⟩]).escaped = some 0 ∧
    (lkEmit [⟨0, true⟩, ⟨1, false⟩]).invoked ≠ [0, 1] := by
  refine ⟨by decide, by decide⟩

/-- C4 amended.  Exception isolation holds for `P2PTransport.emit` (every
callback is invoked, nothing escapes); `LivekitTransport.emit` instead stops
at the first raising callback and lets the exception propagate to the
emitter, skipping all callbacks registered after it. -/
theorem emit_isolation_amended :
    (∀ cbs : List Cb,
        (p2pEmit cbs).invoked = cbs.map Cb.id ∧ (p2pEmit cbs).escaped = none) ∧
    (∀ (pre : List Cb) (c : Cb) (post : List Cb),
        (∀ b ∈ pre, b.raises = false) → c.raises = true →
        lkEmit (pre ++ c :: post) = ⟨(pre ++ [c]).map Cb.id, [], some c.id⟩) := by
  constructor
  · intro cbs
    induction cbs with
    | nil => exact ⟨rfl, rfl⟩
    | cons c rest ih =>
      rw [p2pEmit]
      rcases Bool.eq_false_or_eq_true c.raises with hr | hr <;>
        simp [hr, ih.1, ih.2]
  · intro pre c post hpre hc
    induction pre with
    | nil => simp [lkEmit, hc]
    | cons b rest ih =>
      have hb : b.raises = false := hpre b (List.mem_cons_self b rest)
      have hrest : ∀ x ∈ rest, x.raises = false :=
        fun x hx => hpre x (List.mem_cons_of_mem b hx)
      rw [List.cons_append, lkEmit, if_neg (by simp [hb]), ih hrest]
      simp

/-- Witness for the amended C4: all three p2p callbacks run and nothing
escapes even though one raises; the livekit run stops at the raiser. -/
theorem emit_isolation_amended_witness :
    (p2pEmit [⟨0, false⟩, ⟨1, true⟩, ⟨2, false⟩]).escaped = none ∧
    lkEmit [⟨0, false⟩, ⟨1, true⟩, ⟨2, false⟩] = ⟨[0, 1], [], some 1⟩ :=
  ⟨(emit_isolation_amended.1 [⟨0, false⟩, ⟨1, true⟩, ⟨2, false⟩]).2,
   emit_isolation_amended.2 [⟨0, false⟩] ⟨1, true⟩ [⟨2, false⟩] (by decide) rfl⟩

/- ### C9: off() semantics -/

/-- C9 counterexample.  The claim asserts every transport-level `off` is a
silent no-op when the event is absent; `LivekitTransport.off` throws
`"Event Not Regsitered"` for an absent event (empty registry, and a registry
holding only a different event). -/
theorem lkOff_throws_when_event_absent :
    lkOff [] .start 0 = .error "Event Not Regsitered" ∧
    lkOff [(.stop, [7])] .start 7 = .error "Event Not Regsitered" :=
  ⟨rfl, rfl⟩

/-- C9 amended.  `P2PTransport.off` is a silent no-op when the event or the
callback is absent; `LivekitTransport.off` behaves like the facade: it throws
`"Event Not Regsitered"` when the event has no registration and only the
missing-callback case is a silent no-op; `SimliClient.off` throws the same
for an event absent from its persistent registry. -/
theorem off_semantics_amended :
    (∀ (m : EventReg) (ev : Ev) (cb : Nat),
        regFind m ev = none → p2pOff m ev cb = m) ∧
    (∀ (m : EventReg) (ev : Ev) (cb : Nat) (cbs : List Nat),
        regFind m ev = some cbs → cb ∉ cbs → p2pOff m ev cb = m) ∧
    (∀ (m : EventReg) (ev : Ev) (cb : Nat),
        regFind m ev = none → lkOff m ev cb = .error "Event Not Regsitered") ∧
    (∀ (m : EventReg) (ev : Ev) (cb : Nat),
        regFind m ev ≠ none → ∃ m2, lkOff m ev cb = .ok m2) ∧
    (∀ (m : EventReg) (ev : Ev) (cb : Nat),
        regFind m ev = none → clientOff m ev cb = .error "Event Not Regsitered") := by
  have habsent : ∀ (m : EventReg) (ev : Ev) (cb : Nat),
      regFind m ev = none → p2pOff m ev cb = m := by
    intro m ev cb h
    induction m with
    | nil => rfl
    | cons p rest ih =>
      rw [regFind] at h
      rw [p2pOff]
      by_cases he : p.1 = ev
      · rw [if_pos he] at h
        exact absurd h (by simp)
      · rw [if_neg he] at h
        simp [he, ih h]
  refine ⟨habsent, ?_, ?_, ?_, ?_⟩
  · intro m ev cb cbs h hmem
    induction m with
    | nil => rfl
    | cons p rest ih =>
      rw [regFind] at h
      rw [p2pOff]
      by_cases he : p.1 = ev
      · rw [if_pos he] at h
        have hcbs : p.2 = cbs := by
          injection h
        rw [if_pos he, hcbs, List.erase_of_not_mem hmem, ← hcbs]
      · rw [if_neg he] at h
        simp [he, ih h]
  · intro m ev cb h
    rw [lkOff, h]
    rfl
  · intro m ev cb h
    obtain ⟨x, hx⟩ := Option.ne_none_iff_exists'.mp h
    exact ⟨p2pOff m ev cb, by simp [lkOff, hx]⟩
  · intro m ev cb h
    rw [clientOff, h]
    rfl

/-- Witness for the amended C9 at concrete registries. -/
theorem off_semantics_amended_witness :
    p2pOff [] .error 3 = [] ∧
    p2pOff [(.ack, [1])] .ack 2 = [(.ack, [1])] ∧
    lkOff [] .error 3 = .error "Event Not Regsitered" ∧
    clientOff [] .error 3 = .error "Event Not Regsitered" :=
  ⟨off_semantics_amended.1 [] .error 3 rfl,
   off_semantics_amended.2.1 [(.ack, [1])] .ack 2 [1] rfl (by decide),
   off_semantics_amended.2.2.1 [] .error 3 rfl,
   off_semantics_amended.2.2.2.2 [] .error 3 rfl⟩

/- ### C5: audio frames before the session-start acknowledgment -/

/-- C5 counterexample.  The claim asserts frames submitted before the ACK are
silently dropped and never transmitted, with no exception at the caller.  The
converged client has no acknowledgment gate: with the socket open and the ACK
not yet received the frame goes straight onto the wire, and with the socket
not open `send` throws instead of dropping silently. -/
theorem audio_before_ack_not_dropped :
    clientSendAudioData .opened false [1, 2, 3] = .ok [1, 2, 3] ∧
    clientSendAudioData .connecting false [1, 2, 3] =
      .error "Invalid State, WS Connection 0" :=
  ⟨rfl, rfl⟩

/-- C5 amended.  `sendAudioData` is gated only on the socket state, never on
the acknowledgment: the outcome is independent of whether the ACK arrived;
with the socket open the frame is transmitted immediately, and with the
socket in any other state the send throws `"Invalid State, WS Connection
<readyState>"`. -/
theorem send_audio_gating_amended :
    (∀ (ws : WSState) (a b : Bool) (frame : List Nat),
        clientSendAudioData ws a frame = clientSendAudioData ws b frame) ∧
    (∀ (a : Bool) (frame : List Nat),
        clientSendAudioData .opened a frame = .ok frame) ∧
    (∀ (ws : WSState) (a : Bool) (frame : List Nat), ws ≠ .opened →
        clientSendAudioData ws a frame =
          .error ("Invalid State, WS Connection " ++ toString ws.code)) := by
  refine ⟨fun ws a b frame => rfl, fun a frame => rfl, ?_⟩
  intro ws a frame h
  rw [clientSendAudioData, wsSend, if_pos h]

/-- Witness for the amended C5. -/
theorem send_audio_gating_amended_witness :
    clientSendAudioData .opened false [9] = .ok [9] ∧
    clientSendAudioData .closedSt true [9] = .error "Invalid State, WS Connection 3" :=
  ⟨send_audio_gating_amended.2.1 false [9],
   send_audio_gating_amended.2.2 .closedSt true [9] (by decide)⟩

/- ### C6: the candidate-gathering wait -/

/-- C6.  The claim reads: the wait terminates exactly when the gathering
state reports complete or the candidate count is unchanged across one 150 ms
interval, whichever first, resolving within two intervals of a stall and
fatally timing out at 10 s otherwise.  In the source both counters are reset
to 0 on entry and the first check runs synchronously (and `connect()` installs
the counting listener only after the wait), so the first check always sees
`0 = 0`: here, with gathering never complete and the observed count strictly
increasing at every later check — no stall ever happens — the wait still
resolves at check 0, and the 10 s timeout branch is unreachable. -/
theorem ice_wait_resolves_at_first_check :
    waitForIceGathering (fun _ => false) (fun k => k) 67 = some 0 := by
  decide

/- ### C10: the P2P ICE-server precondition -/

set_option linter.unusedVariables false in
/-- C10.  With an otherwise valid configuration (positive integral buffer
size, well-formed ws/wss URL): `p2p` mode with a `null` or empty ICE server
list throws `"Ice Servers Required for P2P Mode"` before any Transport (hence
any network connection) is created; `livekit` mode accepts a `null` list and
constructs its transport; and `resetConnections` re-enforces the same
precondition on every reconnection attempt. -/
theorem p2p_requires_ice
    (cfg cfg2 : ClientConfig) (s : Session)
    (hmode : cfg.transport_mode = .p2p) (hice : iceMissing cfg.iceServers = true)
    (hbuf : 0 < cfg.audioBufferSize) (hint : (⌊cfg.audioBufferSize⌋ : ℚ) = cfg.audioBufferSize)
    (hurl : jsStartsWith cfg.simliWSURL "ws://" = true ∨ jsStartsWith cfg.simliWSURL "wss://" = true)
    (hurl2 : jsEndsWith cfg.simliWSURL "/" = false)
    (hmode2 : cfg2.transport_mode = .livekit) (hice2 : cfg2.iceServers = none)
    (hbuf2 : 0 < cfg2.audioBufferSize) (hint2 : (⌊cfg2.audioBufferSize⌋ : ℚ) = cfg2.audioBufferSize)
    (hurl3 : jsStartsWith cfg2.simliWSURL "ws://" = true ∨ jsStartsWith cfg2.simliWSURL "wss://" = true)
    (hurl4 : jsEndsWith cfg2.simliWSURL "/" = false)
    (hmode3 : s.transport = .p2p) (hice3 : iceMissing s.iceServers = true) :
    mkSimliClient cfg = .error "Ice Servers Required for P2P Mode" ∧
    mkSimliClient cfg2 = .ok .livekit ∧
    resetConnections s = .error "Ice Servers Required for P2P Mode" := by
  refine ⟨?_, ?_, ?_⟩
  · rw [mkSimliClient, if_neg (not_le.mpr hbuf),
      if_neg (not_not_intro (sub_eq_zero_of_eq hint)),
      if_neg (by push_neg; exact ⟨by simpa using hurl, by simp [hurl2]⟩),
      hmode]
    simp [constructTransport, hice]
  · rw [mkSimliClient, if_neg (not_le.mpr hbuf2),
      if_neg (not_not_intro (sub_eq_zero_of_eq hint2)),
      if_neg (by push_neg; exact ⟨by simpa using hurl3, by simp [hurl4]⟩),
      hmode2]
    rfl
  · rw [resetConnections, hmode3]
    simp [constructTransport, hice3]

/-- Witness for C10 at concrete configurations. -/
theorem p2p_requires_ice_witness :
    mkSimliClient ⟨"tok", none, .p2p, "wss://api.simli.ai", 3000⟩ =
      .error "Ice Servers Required for P2P Mode" ∧
    mkSimliClient ⟨"tok", none, .livekit, "wss://api.simli.ai", 3000⟩ = .ok .livekit ∧
    resetConnections { initSession .p2p (some ["stun:a"]) with iceServers := none } =
      .error "Ice Servers Required for P2P Mode" :=
  p2p_requires_ice
    ⟨"tok", none, .p2p, "wss://api.simli.ai", 3000⟩
    ⟨"tok", none, .livekit, "wss://api.simli.ai", 3000⟩
    { initSession .p2p (some ["stun:a"]) with iceServers := none }
    rfl rfl (by norm_num) (by norm_num) (by decide) (by decide)
    rfl rfl (by norm_num) (by norm_num) (by decide) (by decide)
    rfl rfl

/- ### C1: stop() before start() resolves -/

/-- C1.  The claim reads: once `stop()` is called before `start()` resolves
the session stays terminal and every subsequent `start()` rejects immediately
without constructing a new Transport.  The guard at the top of `start()` does
reject while `shouldStop` is set (first conjunct, where `stop()` ran before
the attempt), but (a) when `stop()` lands while an attempt is in flight the
catch block CLEARS `shouldStop` before throwing (client.ts line 291), so the
very next `start()` passes the guard and runs a full connection attempt to
success — the session was not terminal (conjuncts 2-4); and (b) when `stop()`
lands during the retry backoff delay, `resetConnections` still constructs a
fresh Transport — opening its signaling WebSocket — before the recursive
`start()` hits the guard (conjunct 5: the attempt log gains an entry). -/
theorem stop_during_start_not_terminal :
    (startAux (stopSession (initSession .p2p (some ["stun:a"]))) [⟨false, .success, false⟩]).2 =
      .err reuseErrMsg ∧
    (startAux (initSession .p2p (some ["stun:a"]))
      [⟨true, .localFailure "CONNECTION TIMED OUT", false⟩]).2 = .err stoppedMidMsg ∧
    ((startAux (initSession .p2p (some ["stun:a"]))
      [⟨true, .localFailure "CONNECTION TIMED OUT", false⟩]).1).shouldStop = false ∧
    (startAux
      ((startAux (initSession .p2p (some ["stun:a"]))
        [⟨true, .localFailure "CONNECTION TIMED OUT", false⟩]).1)
      [⟨false, .success, false⟩]).2 = .ok ∧
    (startAux (initSession .p2p (some ["stun:a"]))
      [⟨false, .localFailure "CONNECTION TIMED OUT", true⟩, ⟨false, .success, false⟩]) =
      (⟨.p2p, some ["stun:a"], 1, true, none, .reset, [(1, .p2p)]⟩, .err reuseErrMsg) := by
  refine ⟨by decide, by decide, by decide, by decide, by decide⟩

/- ### C2: the retry counter forces the relay transport -/

/-- The transport-mode content of `attemptLog`: every Transport constructed
while the retry counter exceeded 2 is the relay one, the constructed modes
never revert from relay back to p2p, and a relay entry forces the session's
current mode to relay. -/
def LogOk (s : Session) : Prop :=
  (∀ p ∈ s.attemptLog, 2 < p.1 → p.2 = TransportMode.livekit) ∧
  s.attemptLog.Pairwise
    (fun p q => p.2 = TransportMode.livekit → q.2 = TransportMode.livekit) ∧
  (∀ p ∈ s.attemptLog, p.2 = TransportMode.livekit → s.transport = TransportMode.livekit)

theorem logOk_carry {s s' : Session} (hlog : s'.attemptLog = s.attemptLog)
    (htr : s'.transport = s.transport ∨ s'.transport = TransportMode.livekit)
    (h : LogOk s) : LogOk s' := by
  refine ⟨by rw [hlog]; exact h.1, by rw [hlog]; exact h.2.1, ?_⟩
  intro p hp hpl
  rw [hlog] at hp
  rcases htr with he | he
  · rw [he]
    exact h.2.2 p hp hpl
  · exact he

theorem constructTransport_ok {mode : TransportMode} {ice : Option (List String)}
    {m : TransportMode} (h : constructTransport mode ice = .ok m) : m = mode := by
  cases mode with
  | livekit =>
    rw [constructTransport] at h
    exact (Except.ok.inj h).symm
  | p2p =>
    rw [constructTransport] at h
    by_cases hi : iceMissing ice = true
    · rw [if_pos hi] at h
      exact absurd h (by simp)
    · rw [if_neg hi] at h
      exact (Except.ok.inj h).symm

theorem resetConnections_logOk {s s' : Session} (h : resetConnections s = .ok s')
    (hforce : 2 < s.retryAttempt → s.transport = TransportMode.livekit)
    (hs : LogOk s) : LogOk s' := by
  rcases hct : constructTransport s.transport s.iceServers with e | m
  · rw [resetConnections, hct] at h
    exact absurd h (by simp)
  · rw [resetConnections, hct] at h
    have hm : m = s.transport := constructTransport_ok hct
    have hlog : s'.attemptLog = s.attemptLog ++ [(s.retryAttempt, m)] := by
      rw [← Except.ok.inj h]
    have htr : s'.transport = s.transport := by
      rw [← Except.ok.inj h]
    refine ⟨?_, ?_, ?_⟩
    · intro p hp h2
      rw [hlog] at hp
      rcases List.mem_append.mp hp with hold | hnew
      · exact hs.1 p hold h2
      · have hpeq : p = (s.retryAttempt, m) := List.mem_singleton.mp hnew
        rw [hpeq] at h2 ⊢
        rw [hm]
        exact hforce h2
    · rw [hlog]
      refine List.pairwise_append.mpr ⟨hs.2.1, List.pairwise_singleton _ _, ?_⟩
      intro a ha b hb hal
      have hbeq : b = (s.retryAttempt, m) := List.mem_singleton.mp hb
      rw [hbeq, hm]
      exact hs.2.2 a ha hal
    · intro p hp hpl
      rw [htr]
      rw [hlog] at hp
      rcases List.mem_append.mp hp with hold | hnew
      · exact hs.2.2 p hold hpl
      · have hpeq : p = (s.retryAttempt, m) := List.mem_singleton.mp hnew
        rw [hpeq] at hpl
        rw [← hm]
        exact hpl

theorem startCatch_logOk {s2 : Session} {msg : String} {a : AttemptInput}
    {recur : Session → Session × StartResult}
    (hrec : ∀ s', LogOk s' → LogOk (recur s').1)
    (h2 : LogOk s2) : LogOk (startCatch s2 msg a recur).1 := by
  rw [startCatch]
  by_cases hfr : s2.failReason.isSome = true
  · rw [if_pos hfr]
    exact h2
  · rw [if_neg hfr]
    by_cases hcap : MAX_RETRY_ATTEMPTS ≤ s2.retryAttempt
    · rw [if_pos hcap]
      exact h2
    · rw [if_neg hcap]
      by_cases hss : s2.shouldStop = true
      · rw [if_pos hss]
        exact logOk_carry rfl (Or.inl rfl) h2
      · rw [if_neg hss]
        dsimp only
        set s3 := if a.stopDuringBackoff = true then { s2 with shouldStop := true } else s2
          with hs3
        have h3 : LogOk s3 := by
          by_cases hb2 : a.stopDuringBackoff = true
          · rw [hs3, if_pos hb2]
            exact logOk_carry rfl (Or.inl rfl) h2
          · rw [hs3, if_neg hb2]
            exact h2
        set s5 := if 2 < s3.retryAttempt + 1 then
            { s3 with retryAttempt := s3.retryAttempt + 1, transport := .livekit }
          else { s3 with retryAttempt := s3.retryAttempt + 1 } with hs5
        have h5 : LogOk s5 := by
          by_cases hlt : 2 < s3.retryAttempt + 1
          · rw [hs5, if_pos hlt]
            exact logOk_carry (s := s3) rfl (Or.inr rfl) h3
          · rw [hs5, if_neg hlt]
            exact logOk_carry (s := s3) rfl (Or.inl rfl) h3
        have hforce : 2 < s5.retryAttempt → s5.transport = TransportMode.livekit := by
          by_cases hlt : 2 < s3.retryAttempt + 1
          · rw [hs5, if_pos hlt]
            exact fun _ => rfl
          · rw [hs5, if_neg hlt]
            exact fun hc => absurd hc hlt
        split
        next e heq => exact h5
        next s6 heq => exact hrec s6 (resetConnections_logOk heq hforce h5)

theorem startAux_logOk (trace : List AttemptInput) :
    ∀ s : Session, LogOk s → LogOk (startAux s trace).1 := by
  induction trace with
  | nil => exact fun s h => h
  | cons a rest ih =>
    intro s h
    by_cases hstop : s.shouldStop = true
    · rw [startAux, if_pos hstop]
      exact h
    · rw [startAux, if_neg hstop]
      have h1 : LogOk (if a.stopDuringConnect = true then { s with shouldStop := true } else s) := by
        by_cases hb : a.stopDuringConnect = true
        · rw [if_pos hb]
          exact logOk_carry rfl (Or.inl rfl) h
        · rw [if_neg hb]
          exact h
      set s1 := if a.stopDuringConnect = true then { s with shouldStop := true } else s with hs1
      have hfields :
          ((attemptReject s1 a.outcome).1.attemptLog = s1.attemptLog) ∧
          ((attemptReject s1 a.outcome).1.transport = s1.transport) := by
        cases a.outcome with
        | success => exact ⟨rfl, rfl⟩
        | localFailure m => exact ⟨rfl, rfl⟩
        | remoteFatal m =>
          cases hh : s1.handler <;> simp [attemptReject, hh]
      rcases har : attemptReject s1 a.outcome with ⟨s2, r⟩
      rw [har] at hfields
      have h2 : LogOk s2 := logOk_carry hfields.1 (Or.inl hfields.2) h1
      cases r with
      | none => exact logOk_carry rfl (Or.inl rfl) h2
      | some msg => exact startCatch_logOk (fun s' h' => ih s' h') h2

/-- C2.  In every run of the retry loop from a fresh session: every Transport
constructed by `resetConnections` while the retry counter exceeded 2 is the
relay (`livekit`) one regardless of the configured mode, and the constructed
modes never revert — once one constructed Transport is the relay variant,
every later one is too. -/
theorem retry_forces_livekit (mode : TransportMode) (ice : Option (List String))
    (trace : List AttemptInput) :
    (∀ p ∈ ((startAux (initSession mode ice) trace).1).attemptLog,
        2 < p.1 → p.2 = TransportMode.livekit) ∧
    ((startAux (initSession mode ice) trace).1).attemptLog.Pairwise
      (fun p q => p.2 = TransportMode.livekit → q.2 = TransportMode.livekit) := by
  have h : LogOk (startAux (initSession mode ice) trace).1 :=
    startAux_logOk trace (initSession mode ice)
      ⟨fun p hp => absurd hp (List.not_mem_nil p),
       List.Pairwise.nil,
       fun p hp => absurd hp (List.not_mem_nil p)⟩
  exact ⟨h.1, h.2.1⟩

/-- Witness for C2: four straight local failures from a p2p session; the
third and fourth constructed Transports are forced to the relay mode. -/
theorem retry_forces_livekit_witness :
    ((startAux (initSession .p2p (some ["stun:a"]))
        (List.replicate 4 ⟨false, .localFailure "x", false⟩)).1).attemptLog =
      [(1, .p2p), (2, .p2p), (3, .livekit), (4, .livekit)] ∧
    (3, TransportMode.livekit).2 = TransportMode.livekit :=
  ⟨by decide,
   (retry_forces_livekit .p2p (some ["stun:a"])
      (List.replicate 4 ⟨false, .localFailure "x", false⟩)).1
     (3, TransportMode.livekit) (by decide) (by decide)⟩

/- ### C8: remote fatal signals and the retry loop -/

/-- C8 counterexample.  The claim reads: on every attempt (initial and every
retry) a remote fatal signal makes `start()` reject with the remote-declared
reason, never replaced by a retry-exhaustion message.  Run: the initial
attempt times out locally, the first retry receives a remote fatal signal
`"RATE LIMIT EXCEEDED"`; the handler installed by `resetConnections` saturates
the retry counter instead of recording `failReason`, so the catch block throws
`"Too Many Retry Attempts Failed to connect"`, replacing the remote reason. -/
theorem remote_fatal_masked_on_retry :
    (startAux (initSession .p2p (some ["stun:a"]))
      [⟨false, .localFailure "CONNECTION TIMED OUT", false⟩,
       ⟨false, .remoteFatal "RATE LIMIT EXCEEDED", false⟩]).2 = .err tooManyMsg ∧
    (startAux (initSession .p2p (some ["stun:a"]))
      [⟨false, .localFailure "CONNECTION TIMED OUT", false⟩,
       ⟨false, .remoteFatal "RATE LIMIT EXCEEDED", false⟩]).2 ≠
      .err "RATE LIMIT EXCEEDED" := by
  refine ⟨by decide, by decide⟩

/-- C8 amended.  A remote fatal signal always short-circuits the retry loop —
the rejection is immediate and no further Transport is constructed — but the
rejection reason depends on the attempt: on the initial connection (handler
installed by the constructor) `start()` rejects with the remote-declared
reason; on a retry connection (handler installed by `resetConnections`) it
rejects with the retry-exhaustion message instead, replacing the remote
reason. -/
theorem remote_fatal_short_circuits (s : Session) (msg : String) (b : Bool)
    (rest : List AttemptInput)
    (hstop : s.shouldStop = false) (hfr : s.failReason = none) :
    (s.handler = .ctor →
      startAux s (⟨false, .remoteFatal msg, b⟩ :: rest) =
        ({ s with failReason := some msg }, .err msg)) ∧
    (s.handler = .reset →
      startAux s (⟨false, .remoteFatal msg, b⟩ :: rest) =
        ({ s with retryAttempt := MAX_RETRY_ATTEMPTS }, .err tooManyMsg)) := by
  constructor
  · intro hh
    rw [startAux]
    simp [hstop, attemptReject, hh, startCatch]
  · intro hh
    rw [startAux]
    simp [hstop, attemptReject, hh, hfr, startCatch, MAX_RETRY_ATTEMPTS]

/-- Witness for the amended C8: a remote `"CLOSING bye"` on the initial
attempt rejects with the remote reason; the same signal on a retry attempt
rejects with the exhaustion message. -/
theorem remote_fatal_short_circuits_witness :
    startAux (initSession .p2p (some ["stun:a"]))
        [⟨false, .remoteFatal "CLOSING bye", false⟩] =
      ({ initSession .p2p (some ["stun:a"]) with failReason := some "CLOSING bye" },
        .err "CLOSING bye") ∧
    startAux { initSession .p2p (some ["stun:a"]) with handler := .reset }
        [⟨false, .remoteFatal "CLOSING bye", false⟩] =
      ({ initSession .p2p (some ["stun:a"]) with handler := .reset, retryAttempt := MAX_RETRY_ATTEMPTS },
        .err tooManyMsg) :=
  ⟨(remote_fatal_short_circuits (initSession .p2p (some ["stun:a"]))
      "CLOSING bye" false [] rfl rfl).1 rfl,
   (remote_fatal_short_circuits { initSession .p2p (some ["stun:a"]) with handler := .reset }
      "CLOSING bye" false [] rfl rfl).2 rfl⟩

end SimliSpec
